import Mathlib

/-!
Verification of the task-management HTTP service in `app.py`
(Desafio-Deploy repository).

The service is a Flask application backed by a single PostgreSQL
table `tasks`.  We shallowly embed the pure validation functions and
the five route handlers as Lean functions.  The database is modelled
as an explicit state:

* `DB` holds the rows of the `tasks` table together with the next
  value of the `SERIAL` id sequence;
* a `Option DB` models the storage a handler sees: `none` stands for a
  connection/query failure (every handler catches the exception and
  answers 500), `some db` for a working database in state `db`.

Handlers take a decoded request body / query parameters and the
storage, and return the HTTP `Response` together with the storage as
the handler leaves it.
-/

namespace TaskApp

/-! ## Date parsing (Python `datetime.strptime(s, "%Y-%m-%d")`)

CPython's `_strptime` compiles `%Y` to the regex `\d\d\d\d` (exactly
four digits), `%m` to `1[0-2]|0[1-9]|[1-9]` and `%d` to
`3[01]|[12]\d|0[1-9]|[1-9]` (one or two digits, leading zero
optional), requires the whole input to be consumed, and finally
constructs a `datetime`, which raises `ValueError` when the year is
outside `1..9999` or the day exceeds the length of the month.  Since
the separator `-` cannot occur inside a digit field, matching the
whole pattern is equivalent to splitting the input at `-` into
exactly three fields and matching each field. -/

/-- Gregorian leap-year rule used by `datetime`. -/
def isLeapYear (y : Nat) : Bool :=
  (y % 4 == 0 && y % 100 != 0) || y % 400 == 0

/-- Number of days of month `m` (1..12) in year `y`, as `datetime` checks it. -/
def daysInMonth (y m : Nat) : Nat :=
  if m == 2 then (if isLeapYear y then 29 else 28)
  else if m == 4 || m == 6 || m == 9 || m == 11 then 30
  else 31

/-- Split a character list at every `-`, keeping empty fields, exactly
as the separator `-` cuts the `strptime` input into its digit fields
(and as Python's `str.split` would). -/
def splitDash : List Char → List (List Char)
  | [] => [[]]
  | c :: rest =>
    if c = '-' then [] :: splitDash rest
    else
      match splitDash rest with
      | f :: fs => (c :: f) :: fs
      | [] => [[c]]

/-- ASCII decimal digit test (the driver of `\d` on the inputs we model). -/
def isDig (c : Char) : Bool := '0' ≤ c && c ≤ '9'

/-- Numeric value of a digit field. -/
def digitsVal : List Char → Nat
  | [] => 0
  | c :: rest => (c.toNat - '0'.toNat) * 10 ^ rest.length + digitsVal rest

/-- The `%Y` field of `strptime`: exactly four digits. -/
def matchYearField (s : List Char) : Option Nat :=
  if s.length == 4 && s.all isDig then some (digitsVal s) else none

/-- The `%m` / `%d` fields of `strptime`: one or two digits whose value
lies in `1..hi` (`hi = 12` for months, `hi = 31` for days). -/
def matchNumField (s : List Char) (hi : Nat) : Option Nat :=
  if (s.length == 1 || s.length == 2) && s.all isDig then
    if 1 ≤ digitsVal s && digitsVal s ≤ hi then some (digitsVal s) else none
  else none

/-- The year, month and day fields must each match their `strptime`
pattern, and the values must make a real `datetime`: year at least 1
(four digits bound it by 9999, and `datetime` rejects year 0) and the
day within the month's length. -/
def checkYMD (ys ms ds : List Char) : Bool :=
  match matchYearField ys, matchNumField ms 12, matchNumField ds 31 with
  | some y, some m, some d => decide (1 ≤ y) && decide (d ≤ daysInMonth y m)
  | _, _, _ => false

/-- `validate_date` from `app.py`: an empty string is accepted
outright; otherwise the string must parse with
`datetime.strptime(s, "%Y-%m-%d")`, i.e. split at `-` into exactly a
year, a month and a day field that pass `checkYMD`. -/
def validate_date (date_str : String) : Bool :=
  if date_str.isEmpty then true
  else
    match splitDash date_str.data with
    | [ys, ms, ds] => checkYMD ys ms ds
    | _ => false

/-- `validate_status` from `app.py`: membership in the fixed list of
wire literals. -/
def validate_status (status : String) : Bool :=
  status ∈ ["pendente", "realizando", "concluída"]

/-- The date format the specification literally asks for: empty, or a
zero-padded `YYYY-MM-DD` string (exactly 4-2-2 digits) denoting a real
calendar date.  Written from the spec's words, to be compared with the
source's `validate_date`. -/
def is_valid_date_spec (s : String) : Bool :=
  s.isEmpty ||
    match splitDash s.data with
    | [ys, ms, ds] =>
      ys.length == 4 && ys.all isDig &&
      ms.length == 2 && ms.all isDig &&
      ds.length == 2 && ds.all isDig &&
      decide (1 ≤ digitsVal ys) && decide (1 ≤ digitsVal ms) &&
      decide (digitsVal ms ≤ 12) && decide (1 ≤ digitsVal ds) &&
      decide (digitsVal ds ≤ daysInMonth (digitsVal ys) (digitsVal ms))
    | _ => false

/-! ## Data model -/

/-- One row of the `tasks` table.  `description` and `due_date` are
nullable columns. -/
structure TaskRow where
  id : Nat
  title : String
  description : Option String
  status : String
  due_date : Option String
deriving DecidableEq, Repr

/-- The state of the storage: the rows of the `tasks` table, and the
next value the `SERIAL` sequence will hand out. -/
structure DB where
  nextId : Nat
  rows : List TaskRow
deriving DecidableEq, Repr

/-- A decoded JSON request body, as read by `data.get(...)`: every
field may be absent. -/
structure ReqBody where
  titulo : Option String
  descricao : Option String
  status : Option String
  data_vencimento : Option String
deriving DecidableEq, Repr

/-- Python truthiness of an optional string: `None` and `""` are falsy. -/
def falsy : Option String → Bool
  | none => true
  | some s => s.isEmpty

/-- The body of a JSON HTTP response. -/
inductive RespBody where
  | task (t : TaskRow)
  | tasks (ts : List TaskRow)
  | error (msg : String)
  | message (msg : String)
deriving DecidableEq, Repr

/-- An HTTP response: body plus status code. -/
structure Response where
  body : RespBody
  code : Nat
deriving DecidableEq, Repr

/-! ## Routing table -/

inductive Method where
  | GET | POST | PUT | DELETE
deriving DecidableEq, Repr

/-- The `@app.route` table of `app.py`. -/
def routes : List (String × Method) :=
  [("/tarefas", Method.POST),
   ("/tarefas", Method.GET),
   ("/tarefas/<int:id>", Method.GET),
   ("/tarefas/<int:id>", Method.PUT),
   ("/tarefas/<int:id>", Method.DELETE)]

/-! ## Route handlers -/

/-- `POST /tarefas` (`create_task`).  Validation runs before any
storage access; on a working storage the row is inserted with the next
serial id and echoed back with code 201. -/
def create_task (body : ReqBody) (st : Option DB) : Response × Option DB :=
  if falsy body.titulo || falsy body.status then
    (Response.mk (RespBody.error "Título e status são obrigatórios") 400, st)
  else if !validate_status (body.status.getD "") then
    (Response.mk (RespBody.error "Status inválido") 400, st)
  else if !falsy body.data_vencimento && !validate_date (body.data_vencimento.getD "") then
    (Response.mk (RespBody.error "Data de vencimento inválida") 400, st)
  else
    match st with
    | none => (Response.mk (RespBody.error "Erro interno no servidor") 500, none)
    | some db =>
      let row : TaskRow :=
        { id := db.nextId
          title := body.titulo.getD ""
          description := body.descricao
          status := body.status.getD ""
          due_date := body.data_vencimento }
      (Response.mk (RespBody.task row) 201, some { nextId := db.nextId + 1, rows := db.rows ++ [row] })

/-- `GET /tarefas` (`list_tasks`).  A supplied and valid `status`
query parameter filters the rows; anything else returns every row. -/
def list_tasks (statusQ : Option String) (st : Option DB) : Response × Option DB :=
  match st with
  | none => (Response.mk (RespBody.error "Erro interno no servidor") 500, none)
  | some db =>
    if !falsy statusQ && validate_status (statusQ.getD "") then
      (Response.mk (RespBody.tasks (db.rows.filter (fun r => r.status == statusQ.getD ""))) 200, some db)
    else
      (Response.mk (RespBody.tasks db.rows) 200, some db)

/-- `GET /tarefas/<int:id>` (`get_task`). -/
def get_task (id : Nat) (st : Option DB) : Response × Option DB :=
  match st with
  | none => (Response.mk (RespBody.error "Erro interno no servidor") 500, none)
  | some db =>
    match db.rows.find? (fun r => r.id == id) with
    | none => (Response.mk (RespBody.error "Tarefa não encontrada") 404, some db)
    | some t => (Response.mk (RespBody.task t) 200, some db)

/-- `PUT /tarefas/<int:id>` (`update_task`).  Same validation sequence
as `create_task`; then an existence check, then the `UPDATE` statement
replacing every field of the matching rows. -/
def update_task (id : Nat) (body : ReqBody) (st : Option DB) : Response × Option DB :=
  if falsy body.titulo || falsy body.status then
    (Response.mk (RespBody.error "Título e status são obrigatórios") 400, st)
  else if !validate_status (body.status.getD "") then
    (Response.mk (RespBody.error "Status inválido") 400, st)
  else if !falsy body.data_vencimento && !validate_date (body.data_vencimento.getD "") then
    (Response.mk (RespBody.error "Data de vencimento inválida") 400, st)
  else
    match st with
    | none => (Response.mk (RespBody.error "Erro interno no servidor") 500, none)
    | some db =>
      match db.rows.find? (fun r => r.id == id) with
      | none => (Response.mk (RespBody.error "Tarefa não encontrada") 404, some db)
      | some _ =>
        let rows' := db.rows.map (fun r =>
          if r.id == id then
            { id := r.id
              title := body.titulo.getD ""
              description := body.descricao
              status := body.status.getD ""
              due_date := body.data_vencimento }
          else r)
        (Response.mk (RespBody.task
          { id := id
            title := body.titulo.getD ""
            description := body.descricao
            status := body.status.getD ""
            due_date := body.data_vencimento }) 200,
         some { nextId := db.nextId, rows := rows' })

/-- `DELETE /tarefas/<int:id>` (`delete_task`). -/
def delete_task (id : Nat) (st : Option DB) : Response × Option DB :=
  match st with
  | none => (Response.mk (RespBody.error "Erro interno no servidor") 500, none)
  | some db =>
    match db.rows.find? (fun r => r.id == id) with
    | none => (Response.mk (RespBody.error "Tarefa não encontrada") 404, some db)
    | some _ =>
      (Response.mk (RespBody.message "Tarefa excluída com sucesso") 200,
       some { nextId := db.nextId, rows := db.rows.filter (fun r => r.id != id) })

/-! ## Schema initialisation (`init_db`) -/

/-- The set of tables of the database, for the schema initialiser. -/
structure SchemaState where
  tables : List String
deriving DecidableEq, Repr

/-- `CREATE TABLE IF NOT EXISTS`: a no-op when the table already
exists, otherwise it adds the table once. -/
def createTableIfNotExists (name : String) (st : SchemaState) : SchemaState :=
  if name ∈ st.tables then st else { tables := st.tables ++ [name] }

/-- The body of `init_db` before its `try/except`: connecting may
fail (modelled by `connOk = false`, the exception re-raised by
`get_db_connection`), otherwise the `CREATE TABLE IF NOT EXISTS tasks`
statement runs. -/
def init_db_body (connOk : Bool) (st : SchemaState) : Except String SchemaState :=
  if connOk then Except.ok (createTableIfNotExists "tasks" st)
  else Except.error "Erro ao conectar ao banco de dados"

/-- `init_db` from `app.py`: the whole body is wrapped in
`try/except`, so a failure is logged and the function returns normally
with the schema unchanged. -/
def init_db (connOk : Bool) (st : SchemaState) : SchemaState :=
  match init_db_body connOk st with
  | Except.ok st' => st'
  | Except.error _ => st

/-! ## Derived specification predicates -/

/-- A request body that passes all three validation checks of
`create_task` / `update_task`: non-empty title and status, a
recognised status literal, and a due date accepted by the date
validator (absent dates are accepted because `validate_date "" = true`). -/
def bodyValid (b : ReqBody) : Prop :=
  falsy b.titulo = false ∧ falsy b.status = false ∧
  validate_status (b.status.getD "") = true ∧
  validate_date (b.data_vencimento.getD "") = true

instance (b : ReqBody) : Decidable (bodyValid b) := by
  unfold bodyValid; infer_instance

/-- What the amended C1 claim says a non-empty accepted date looks
like: the string splits at `-` into exactly three all-digit fields — a
four-digit year that is at least 1, a one-or-two-digit month in
`1..12` and a one-or-two-digit day within the month's length. -/
def dateSpecAmended (s : String) : Prop :=
  s = "" ∨ ∃ ys ms ds,
    splitDash s.data = [ys, ms, ds] ∧
    ys.length = 4 ∧ ys.all isDig = true ∧
    (ms.length = 1 ∨ ms.length = 2) ∧ ms.all isDig = true ∧
    (ds.length = 1 ∨ ds.length = 2) ∧ ds.all isDig = true ∧
    1 ≤ digitsVal ys ∧ 1 ≤ digitsVal ms ∧ digitsVal ms ≤ 12 ∧
    1 ≤ digitsVal ds ∧ digitsVal ds ≤ daysInMonth (digitsVal ys) (digitsVal ms)

/-! ## Helper lemmas -/

theorem matchYearField_some_iff (s : List Char) (y : Nat) :
    matchYearField s = some y ↔
      s.length = 4 ∧ s.all isDig = true ∧ digitsVal s = y := by
  unfold matchYearField
  by_cases h : (s.length == 4 && s.all isDig) = true
  · rw [if_pos h]
    simp only [Bool.and_eq_true, beq_iff_eq] at h
    simp [h.1, h.2, eq_comm]
  · rw [if_neg h]
    refine iff_of_false (by simp) ?_
    intro hc
    exact h (by simp [hc.1, hc.2.1])

theorem matchNumField_some_iff (s : List Char) (hi n : Nat) :
    matchNumField s hi = some n ↔
      (s.length = 1 ∨ s.length = 2) ∧ s.all isDig = true ∧
      1 ≤ digitsVal s ∧ digitsVal s ≤ hi ∧ digitsVal s = n := by
  unfold matchNumField
  by_cases h : ((s.length == 1 || s.length == 2) && s.all isDig) = true
  · rw [if_pos h]
    simp only [Bool.and_eq_true, Bool.or_eq_true, beq_iff_eq] at h
    by_cases hr : (1 ≤ digitsVal s && digitsVal s ≤ hi) = true
    · rw [if_pos hr]
      simp only [Bool.and_eq_true, decide_eq_true_eq] at hr
      simp [h.1, h.2, hr.1, hr.2, eq_comm]
    · rw [if_neg hr]
      refine iff_of_false (by simp) ?_
      intro hc
      exact hr (by simp [hc.2.2.1, hc.2.2.2.1])
  · rw [if_neg h]
    refine iff_of_false (by simp) ?_
    intro hc
    refine h ?_
    rcases hc.1 with h1 | h1 <;> simp [h1, hc.2.1]

theorem validate_status_mem (s : String) :
    validate_status s = true ↔
      s = "pendente" ∨ s = "realizando" ∨ s = "concluída" := by
  unfold validate_status
  simp

theorem validate_status_ne_empty (s : String) (h : validate_status s = true) :
    s.isEmpty = false := by
  rcases (validate_status_mem s).mp h with h | h | h <;> subst h <;> decide

theorem find?_append_none {α : Type} (p : α → Bool) (l₁ l₂ : List α)
    (h : l₁.find? p = none) : (l₁ ++ l₂).find? p = l₂.find? p := by
  induction l₁ with
  | nil => simp
  | cons a l ih =>
    rw [List.find?_cons] at h
    cases hp : p a with
    | true => rw [hp] at h; cases h
    | false =>
      rw [hp] at h
      simpa [List.find?_cons, hp] using ih h

theorem validate_date_false_not_empty (s : String) (h : validate_date s = false) :
    s.isEmpty = false := by
  cases hse : s.isEmpty
  · rfl
  · exfalso
    unfold validate_date at h
    rw [if_pos hse] at h
    cases h

theorem validate_date_eq_checkYMD (s : String) (a b c : List Char)
    (hne : s.isEmpty = false) (hsp : splitDash s.data = [a, b, c]) :
    validate_date s = checkYMD a b c := by
  unfold validate_date
  rw [hne, if_neg (by decide : ¬ (false = true)), hsp]

theorem validate_date_not3 (s : String) (hne : s.isEmpty = false)
    (h : ∀ a b c, splitDash s.data ≠ [a, b, c]) : validate_date s = false := by
  unfold validate_date
  rw [hne, if_neg (by decide : ¬ (false = true))]
  cases hsp : splitDash s.data with
  | nil => rfl
  | cons a t =>
    cases t with
    | nil => rfl
    | cons b t2 =>
      cases t2 with
      | nil => rfl
      | cons c t3 =>
        cases t3 with
        | nil => exact absurd hsp (h a b c)
        | cons d r => rfl

theorem checkYMD_eq_true (ys ms ds : List Char) :
    checkYMD ys ms ds = true ↔
      ∃ y m d, matchYearField ys = some y ∧ matchNumField ms 12 = some m ∧
        matchNumField ds 31 = some d ∧ 1 ≤ y ∧ d ≤ daysInMonth y m := by
  unfold checkYMD
  cases hY : matchYearField ys with
  | none => simp
  | some y =>
    cases hM : matchNumField ms 12 with
    | none => simp
    | some m =>
      cases hD : matchNumField ds 31 with
      | none => simp
      | some d => simp [and_assoc]

theorem due_check_true_of_invalid (o : Option String)
    (h : validate_date (o.getD "") = false) :
    (!falsy o && !validate_date (o.getD "")) = true := by
  cases o with
  | none => exact absurd h (by decide)
  | some s =>
    have hse := validate_date_false_not_empty s (by simpa using h)
    simp only [Option.getD] at h
    simp [falsy, hse, h]

theorem due_check_false_of_valid (o : Option String)
    (h : validate_date (o.getD "") = true) :
    (!falsy o && !validate_date (o.getD "")) = false := by
  simp [h]

/-- Once the three validation checks pass, `create_task` responds
either 500 (failed storage) or 201 with a task body. -/
theorem create_task_pass_resp (body : ReqBody) (st : Option DB)
    (h1 : (falsy body.titulo || falsy body.status) = false)
    (h2 : validate_status (body.status.getD "") = true)
    (h3 : (!falsy body.data_vencimento && !validate_date (body.data_vencimento.getD "")) = false) :
    (create_task body st).1 = Response.mk (RespBody.error "Erro interno no servidor") 500 ∨
    ∃ t, (create_task body st).1 = Response.mk (RespBody.task t) 201 := by
  rcases st with _ | db
  · left
    simp [create_task, h1, h2, h3]
  · right
    exact ⟨{ id := db.nextId, title := body.titulo.getD "", description := body.descricao, status := body.status.getD "", due_date := body.data_vencimento },
           by simp [create_task, h1, h2, h3]⟩

/-- Once the three validation checks pass, `update_task` responds
500 (failed storage), 404 (unknown id) or 200 with a task body. -/
theorem update_task_pass_resp (id : Nat) (body : ReqBody) (st : Option DB)
    (h1 : (falsy body.titulo || falsy body.status) = false)
    (h2 : validate_status (body.status.getD "") = true)
    (h3 : (!falsy body.data_vencimento && !validate_date (body.data_vencimento.getD "")) = false) :
    (update_task id body st).1 = Response.mk (RespBody.error "Erro interno no servidor") 500 ∨
    (update_task id body st).1 = Response.mk (RespBody.error "Tarefa não encontrada") 404 ∨
    ∃ t, (update_task id body st).1 = Response.mk (RespBody.task t) 200 := by
  rcases st with _ | db
  · left
    simp [update_task, h1, h2, h3]
  · cases hf : db.rows.find? (fun r => r.id == id) with
    | none =>
      right; left
      simp [update_task, h1, h2, h3, hf]
    | some t =>
      right; right
      exact ⟨{ id := id, title := body.titulo.getD "", description := body.descricao, status := body.status.getD "", due_date := body.data_vencimento },
             by simp [update_task, h1, h2, h3, hf]⟩

theorem bool_eq_false {b : Bool} (h : ¬ b = true) : b = false := by
  cases b
  · rfl
  · exact absurd rfl h

theorem daysInMonth_le (y m : Nat) : daysInMonth y m ≤ 31 := by
  unfold daysInMonth
  split
  · split <;> omega
  · split <;> omega

/-! ## Claims -/

/-- Claim C3: for every stored set of tasks and every supplied status
filter, a valid filter makes `list_tasks` return exactly the rows whose
status equals the filter, while an invalid filter silently yields the
unfiltered full set (never an error). -/
theorem claim_C3_list_filter (db : DB) (s : String) :
    (validate_status s = true →
      ∃ ts, list_tasks (some s) (some db) = (Response.mk (RespBody.tasks ts) 200, some db) ∧
        ∀ r : TaskRow, r ∈ ts ↔ (r ∈ db.rows ∧ r.status = s)) ∧
    (validate_status s = false →
      list_tasks (some s) (some db) = (Response.mk (RespBody.tasks db.rows) 200, some db)) := by
  constructor
  · intro hv
    have hne := validate_status_ne_empty s hv
    refine ⟨db.rows.filter (fun r => r.status == s), ?_, ?_⟩
    · simp [list_tasks, falsy, hne, hv]
    · intro r
      simp [List.mem_filter]
  · intro hv
    simp [list_tasks, hv]

/-- Witness for C3 at a concrete table: filtering by the valid status
`pendente` and by the invalid status `urgente`. -/
theorem claim_C3_witness :
    (∃ ts,
      list_tasks (some "pendente")
          (some { nextId := 3, rows := [{ id := 1, title := "a", description := none, status := "pendente", due_date := none }, { id := 2, title := "b", description := none, status := "concluída", due_date := none }] }) =
        (Response.mk (RespBody.tasks ts) 200,
         some { nextId := 3, rows := [{ id := 1, title := "a", description := none, status := "pendente", due_date := none }, { id := 2, title := "b", description := none, status := "concluída", due_date := none }] }) ∧
      ∀ r : TaskRow, r ∈ ts ↔
        (r ∈ [{ id := 1, title := "a", description := none, status := "pendente", due_date := none }, { id := 2, title := "b", description := none, status := "concluída", due_date := none }] ∧ r.status = "pendente")) ∧
    list_tasks (some "urgente")
        (some { nextId := 3, rows := [{ id := 1, title := "a", description := none, status := "pendente", due_date := none }, { id := 2, title := "b", description := none, status := "concluída", due_date := none }] }) =
      (Response.mk (RespBody.tasks [{ id := 1, title := "a", description := none, status := "pendente", due_date := none }, { id := 2, title := "b", description := none, status := "concluída", due_date := none }]) 200,
       some { nextId := 3, rows := [{ id := 1, title := "a", description := none, status := "pendente", due_date := none }, { id := 2, title := "b", description := none, status := "concluída", due_date := none }] }) :=
  ⟨(claim_C3_list_filter _ "pendente").1 (by decide),
   (claim_C3_list_filter _ "urgente").2 (by decide)⟩

/-- Claim C4: whenever the title or the status of the request body is
missing or empty, `create_task` answers the required-fields 400 error
and leaves the storage exactly as it was — for every storage state,
including a failed one, because validation runs before any storage
access. -/
theorem claim_C4_create_missing_fields (body : ReqBody) (st : Option DB)
    (h : falsy body.titulo = true ∨ falsy body.status = true) :
    create_task body st =
      (Response.mk (RespBody.error "Título e status são obrigatórios") 400, st) := by
  unfold create_task
  rcases h with h | h <;> simp [h]

/-- Witness for C4: a body without a title is rejected and the
database is untouched. -/
theorem claim_C4_witness :
    create_task { titulo := none, descricao := none, status := some "pendente", data_vencimento := none }
        (some { nextId := 1, rows := [] }) =
      (Response.mk (RespBody.error "Título e status são obrigatórios") 400,
       some { nextId := 1, rows := [] }) :=
  claim_C4_create_missing_fields _ _ (Or.inl rfl)

/-- Claim C5: for every valid task input, `create_task` answers 201
with the freshly assigned id and the input's fields, and `get_task` on
that id against the storage `create_task` left behind returns exactly
the same record. -/
theorem claim_C5_create_then_get (db : DB) (body : ReqBody)
    (hb : bodyValid body)
    (hfresh : ∀ r ∈ db.rows, r.id ≠ db.nextId) :
    ∃ st',
      create_task body (some db) =
        (Response.mk (RespBody.task { id := db.nextId, title := body.titulo.getD "", description := body.descricao, status := body.status.getD "", due_date := body.data_vencimento }) 201, st') ∧
      get_task db.nextId st' =
        (Response.mk (RespBody.task { id := db.nextId, title := body.titulo.getD "", description := body.descricao, status := body.status.getD "", due_date := body.data_vencimento }) 200, st') := by
  obtain ⟨h1, h2, h3, h4⟩ := hb
  have hfind : db.rows.find? (fun r => r.id == db.nextId) = none := by
    rw [List.find?_eq_none]
    intro r hr
    simpa using hfresh r hr
  refine ⟨some { nextId := db.nextId + 1,
                 rows := db.rows ++ [{ id := db.nextId, title := body.titulo.getD "", description := body.descricao, status := body.status.getD "", due_date := body.data_vencimento }] }, ?_, ?_⟩
  · simp [create_task, h1, h2, h3, h4]
  · simp only [get_task]
    rw [find?_append_none _ _ _ hfind]
    simp [List.find?]

/-- Witness for C5: creating a task in a one-row table and reading it
back through its new id. -/
theorem claim_C5_witness :
    ∃ st',
      create_task { titulo := some "b", descricao := some "d", status := some "realizando", data_vencimento := some "2024-01-05" }
          (some { nextId := 2, rows := [{ id := 1, title := "a", description := none, status := "pendente", due_date := none }] }) =
        (Response.mk (RespBody.task { id := 2, title := "b", description := some "d", status := "realizando", due_date := some "2024-01-05" }) 201, st') ∧
      get_task 2 st' =
        (Response.mk (RespBody.task { id := 2, title := "b", description := some "d", status := "realizando", due_date := some "2024-01-05" }) 200, st') :=
  claim_C5_create_then_get _ _ (by decide) (by decide)

/-- Claim C8: on an id that no stored row carries, `get_task`,
`update_task` (with an otherwise valid body) and `delete_task` all
answer 404 "Tarefa não encontrada" — never a storage error — and leave
the stored task set unchanged. -/
theorem claim_C8_not_found (db : DB) (id : Nat) (body : ReqBody)
    (hid : ∀ r ∈ db.rows, r.id ≠ id)
    (hb : bodyValid body) :
    get_task id (some db) = (Response.mk (RespBody.error "Tarefa não encontrada") 404, some db) ∧
    update_task id body (some db) = (Response.mk (RespBody.error "Tarefa não encontrada") 404, some db) ∧
    delete_task id (some db) = (Response.mk (RespBody.error "Tarefa não encontrada") 404, some db) := by
  have hfind : db.rows.find? (fun r => r.id == id) = none := by
    rw [List.find?_eq_none]
    intro r hr
    simpa using hid r hr
  obtain ⟨h1, h2, h3, h4⟩ := hb
  refine ⟨?_, ?_, ?_⟩
  · simp [get_task, hfind]
  · simp [update_task, h1, h2, h3, h4, hfind]
  · simp [delete_task, hfind]

/-- Witness for C8: id 5 is absent from a one-row table. -/
theorem claim_C8_witness :
    get_task 5 (some { nextId := 2, rows := [{ id := 1, title := "a", description := none, status := "pendente", due_date := none }] }) =
      (Response.mk (RespBody.error "Tarefa não encontrada") 404,
       some { nextId := 2, rows := [{ id := 1, title := "a", description := none, status := "pendente", due_date := none }] }) ∧
    update_task 5 { titulo := some "b", descricao := none, status := some "realizando", data_vencimento := none }
        (some { nextId := 2, rows := [{ id := 1, title := "a", description := none, status := "pendente", due_date := none }] }) =
      (Response.mk (RespBody.error "Tarefa não encontrada") 404,
       some { nextId := 2, rows := [{ id := 1, title := "a", description := none, status := "pendente", due_date := none }] }) ∧
    delete_task 5 (some { nextId := 2, rows := [{ id := 1, title := "a", description := none, status := "pendente", due_date := none }] }) =
      (Response.mk (RespBody.error "Tarefa não encontrada") 404,
       some { nextId := 2, rows := [{ id := 1, title := "a", description := none, status := "pendente", due_date := none }] }) :=
  claim_C8_not_found _ 5 _ (by decide) (by decide)

/-- Counterexample to C6 as stated: in the body
`{"status": "foo"}` the supplied status `foo` is not one of the three
literals, yet `create_task` does not answer `(400, "Status inválido")`
— the missing title makes it answer the required-fields error
instead. -/
theorem claim_C6_counterexample :
    validate_status "foo" = false ∧
    (create_task { titulo := none, descricao := none, status := some "foo", data_vencimento := none }
        (some { nextId := 1, rows := [] })).1 =
      Response.mk (RespBody.error "Título e status são obrigatórios") 400 ∧
    (create_task { titulo := none, descricao := none, status := some "foo", data_vencimento := none }
        (some { nextId := 1, rows := [] })).1 ≠
      Response.mk (RespBody.error "Status inválido") 400 := by
  decide

/-- Claim C6 (amended): `create_task` and `update_task` answer
`(400, "Status inválido")` exactly when the required-field check
passes (title and status present and non-empty) and the supplied
status is not one of the three recognised literals; the recognition
itself is case-sensitive exact string equality against `pendente`,
`realizando`, `concluída`, with no normalisation. -/
theorem claim_C6_status_validation (body : ReqBody) (id : Nat) (st : Option DB) :
    ((create_task body st).1 = Response.mk (RespBody.error "Status inválido") 400 ↔
      falsy body.titulo = false ∧ falsy body.status = false ∧
      validate_status (body.status.getD "") = false) ∧
    ((update_task id body st).1 = Response.mk (RespBody.error "Status inválido") 400 ↔
      falsy body.titulo = false ∧ falsy body.status = false ∧
      validate_status (body.status.getD "") = false) ∧
    (∀ s : String, validate_status s = true ↔ s = "pendente" ∨ s = "realizando" ∨ s = "concluída") ∧
    validate_status "Pendente" = false ∧ validate_status "pendente " = false := by
  by_cases h1 : (falsy body.titulo || falsy body.status) = true
  · have hC : (create_task body st).1 = Response.mk (RespBody.error "Título e status são obrigatórios") 400 := by
      simp [create_task, h1]
    have hU : (update_task id body st).1 = Response.mk (RespBody.error "Título e status são obrigatórios") 400 := by
      simp [update_task, h1]
    have hRHS : ¬(falsy body.titulo = false ∧ falsy body.status = false ∧
        validate_status (body.status.getD "") = false) := by
      rintro ⟨ht, hs, _⟩
      have h1s : falsy body.titulo = true ∨ falsy body.status = true := by
        simpa using h1
      rcases h1s with h | h
      · rw [ht] at h; cases h
      · rw [hs] at h; cases h
    refine ⟨?_, ?_, validate_status_mem, by decide, by decide⟩
    · rw [hC]; exact iff_of_false (by decide) hRHS
    · rw [hU]; exact iff_of_false (by decide) hRHS
  · have h1' : (falsy body.titulo || falsy body.status) = false := bool_eq_false h1
    obtain ⟨ht, hs⟩ := Bool.or_eq_false_iff.mp h1'
    by_cases h2 : validate_status (body.status.getD "") = true
    · have hRHS : ¬(falsy body.titulo = false ∧ falsy body.status = false ∧
          validate_status (body.status.getD "") = false) := by
        rintro ⟨_, _, hv⟩
        rw [h2] at hv
        cases hv
      by_cases h3 : (!falsy body.data_vencimento && !validate_date (body.data_vencimento.getD "")) = true
      · have hC : (create_task body st).1 = Response.mk (RespBody.error "Data de vencimento inválida") 400 := by
          simp [create_task, h1', h2, h3]
        have hU : (update_task id body st).1 = Response.mk (RespBody.error "Data de vencimento inválida") 400 := by
          simp [update_task, h1', h2, h3]
        refine ⟨?_, ?_, validate_status_mem, by decide, by decide⟩
        · rw [hC]; exact iff_of_false (by decide) hRHS
        · rw [hU]; exact iff_of_false (by decide) hRHS
      · have h3' := bool_eq_false h3
        have hCne : (create_task body st).1 ≠ Response.mk (RespBody.error "Status inválido") 400 := by
          rcases create_task_pass_resp body st h1' h2 h3' with h | ⟨t, h⟩ <;> rw [h] <;> simp
        have hUne : (update_task id body st).1 ≠ Response.mk (RespBody.error "Status inválido") 400 := by
          rcases update_task_pass_resp id body st h1' h2 h3' with h | h | ⟨t, h⟩ <;> rw [h] <;> simp
        exact ⟨iff_of_false hCne hRHS, iff_of_false hUne hRHS, validate_status_mem, by decide, by decide⟩
    · have h2' : validate_status (body.status.getD "") = false := bool_eq_false h2
      have hC : (create_task body st).1 = Response.mk (RespBody.error "Status inválido") 400 := by
        simp [create_task, h1', h2']
      have hU : (update_task id body st).1 = Response.mk (RespBody.error "Status inválido") 400 := by
        simp [update_task, h1', h2']
      refine ⟨?_, ?_, validate_status_mem, by decide, by decide⟩
      · rw [hC]; exact iff_of_true rfl ⟨ht, hs, h2'⟩
      · rw [hU]; exact iff_of_true rfl ⟨ht, hs, h2'⟩

/-- Counterexample to C7 as stated: `2024-1-5` does not match the
zero-padded `YYYY-MM-DD` format, yet a body carrying it as due date
sails through create (201) and update (200) — Python's `strptime`
accepts months and days without the leading zero. -/
theorem claim_C7_counterexample :
    is_valid_date_spec "2024-1-5" = false ∧
    (create_task { titulo := some "t", descricao := none, status := some "pendente", data_vencimento := some "2024-1-5" }
        (some { nextId := 1, rows := [] })).1.code = 201 ∧
    (update_task 1 { titulo := some "t", descricao := none, status := some "pendente", data_vencimento := some "2024-1-5" }
        (some { nextId := 2, rows := [{ id := 1, title := "a", description := none, status := "pendente", due_date := none }] })).1.code = 200 := by
  decide

/-- Claim C7 (amended): whenever the body carries a due date the date
validator rejects (non-empty and not a flexible `Y-M-D` calendar
date), `create_task` and `update_task` answer a 400 validation
failure; a body without a due date can never trigger the due-date
error. -/
theorem claim_C7_due_date_validation (body : ReqBody) (id : Nat) (st : Option DB) :
    (∀ s, body.data_vencimento = some s → validate_date s = false →
      (create_task body st).1.code = 400 ∧ (update_task id body st).1.code = 400) ∧
    (body.data_vencimento = none →
      (create_task body st).1 ≠ Response.mk (RespBody.error "Data de vencimento inválida") 400 ∧
      (update_task id body st).1 ≠ Response.mk (RespBody.error "Data de vencimento inválida") 400) := by
  constructor
  · intro s hd hv
    by_cases h1 : (falsy body.titulo || falsy body.status) = true
    · constructor <;> simp [create_task, update_task, h1]
    · have h1' := bool_eq_false h1
      by_cases h2 : validate_status (body.status.getD "") = true
      · have h3 : (!falsy body.data_vencimento && !validate_date (body.data_vencimento.getD "")) = true := by
          apply due_check_true_of_invalid
          rw [hd]
          simpa using hv
        constructor
        · simp [create_task, h1', h2, h3]
        · simp [update_task, h1', h2, h3]
      · have h2' := bool_eq_false h2
        constructor
        · simp [create_task, h1', h2']
        · simp [update_task, h1', h2']
  · intro hd
    by_cases h1 : (falsy body.titulo || falsy body.status) = true
    · have hC : (create_task body st).1 = Response.mk (RespBody.error "Título e status são obrigatórios") 400 := by
        simp [create_task, h1]
      have hU : (update_task id body st).1 = Response.mk (RespBody.error "Título e status são obrigatórios") 400 := by
        simp [update_task, h1]
      rw [hC, hU]
      exact ⟨by decide, by decide⟩
    · have h1' := bool_eq_false h1
      by_cases h2 : validate_status (body.status.getD "") = true
      · have h3' : (!falsy body.data_vencimento && !validate_date (body.data_vencimento.getD "")) = false := by
          rw [hd]
          simp [falsy]
        constructor
        · rcases create_task_pass_resp body st h1' h2 h3' with h | ⟨t, h⟩ <;> rw [h] <;> simp
        · rcases update_task_pass_resp id body st h1' h2 h3' with h | h | ⟨t, h⟩ <;> rw [h] <;> simp
      · have h2' := bool_eq_false h2
        have hC : (create_task body st).1 = Response.mk (RespBody.error "Status inválido") 400 := by
          simp [create_task, h1', h2']
        have hU : (update_task id body st).1 = Response.mk (RespBody.error "Status inválido") 400 := by
          simp [update_task, h1', h2']
        rw [hC, hU]
        exact ⟨by decide, by decide⟩

/-- Witness for C7: the malformed due date `2024/13/40` is rejected by
create and update, and a body without a due date never hits the
due-date error. -/
theorem claim_C7_witness :
    ((create_task { titulo := some "t", descricao := none, status := some "pendente", data_vencimento := some "2024/13/40" }
        (some { nextId := 1, rows := [] })).1.code = 400 ∧
     (update_task 1 { titulo := some "t", descricao := none, status := some "pendente", data_vencimento := some "2024/13/40" }
        (some { nextId := 1, rows := [] })).1.code = 400) ∧
    ((create_task { titulo := some "t", descricao := none, status := some "pendente", data_vencimento := none }
        (some { nextId := 1, rows := [] })).1 ≠ Response.mk (RespBody.error "Data de vencimento inválida") 400 ∧
     (update_task 1 { titulo := some "t", descricao := none, status := some "pendente", data_vencimento := none }
        (some { nextId := 1, rows := [] })).1 ≠ Response.mk (RespBody.error "Data de vencimento inválida") 400) :=
  ⟨(claim_C7_due_date_validation _ 1 _).1 "2024/13/40" rfl (by decide),
   (claim_C7_due_date_validation _ 1 _).2 rfl⟩

/-- Claim C9: `init_db` is idempotent — a second call changes nothing
and the `tasks` table is never duplicated — and when its body fails
(connection error) the exception is swallowed: `init_db` still returns
normally, with the schema unchanged. -/
theorem claim_C9_init_db (st : SchemaState) (connOk : Bool) :
    init_db true (init_db true st) = init_db true st ∧
    List.count "tasks" (init_db true st).tables ≤ max 1 (List.count "tasks" st.tables) ∧
    "tasks" ∈ (init_db true st).tables ∧
    (init_db_body connOk st = Except.ok (init_db connOk st) ∨
      (init_db_body connOk st = Except.error "Erro ao conectar ao banco de dados" ∧
       init_db connOk st = st)) := by
  refine ⟨?_, ?_, ?_, ?_⟩
  · by_cases hmem : "tasks" ∈ st.tables <;>
      simp [init_db, init_db_body, createTableIfNotExists, hmem]
  · by_cases hmem : "tasks" ∈ st.tables
    · simp only [init_db, init_db_body, createTableIfNotExists, hmem, if_pos, if_true]
      exact le_max_right _ _
    · simp only [init_db, init_db_body, createTableIfNotExists, hmem, if_false, if_true]
      rw [List.count_append]
      rw [List.count_eq_zero.mpr hmem]
      simp
  · by_cases hmem : "tasks" ∈ st.tables <;>
      simp [init_db, init_db_body, createTableIfNotExists, hmem]
  · cases connOk
    · exact Or.inr ⟨rfl, rfl⟩
    · exact Or.inl rfl

/-- Counterexample to C1 as stated: `2024-1-5` is not in the
zero-padded `YYYY-MM-DD` format, yet `validate_date` accepts it —
Python's `strptime` lets month and day drop the leading zero. -/
theorem claim_C1_counterexample :
    validate_date "2024-1-5" = true ∧ is_valid_date_spec "2024-1-5" = false := by
  decide

/-- Claim C1 (amended): `validate_date s` is true exactly when `s` is
empty or splits at `-` into three all-digit fields — a four-digit year
that is at least 1, a one-or-two-digit month in 1..12 and a
one-or-two-digit day within the month — so it still rejects every
malformed string and every out-of-range calendar value such as month
13 or day 40. -/
theorem claim_C1_validate_date (s : String) :
    (validate_date s = true ↔ dateSpecAmended s) ∧
    validate_date "2024-13-01" = false ∧
    validate_date "2024-01-40" = false ∧
    validate_date "not-a-date" = false := by
  refine ⟨?_, by decide, by decide, by decide⟩
  by_cases hs : s.isEmpty
  · have hseq : s = "" := (String.isEmpty_iff s).mp hs
    subst hseq
    exact iff_of_true (by decide) (Or.inl rfl)
  · have hne := bool_eq_false hs
    have hs' : ¬ s = "" := by
      intro h
      rw [h] at hne
      exact absurd hne (by decide)
    unfold dateSpecAmended
    rcases hsp : splitDash s.data with _ | ⟨a, _ | ⟨b, _ | ⟨c, _ | ⟨d, r⟩⟩⟩⟩
    · have hv := validate_date_not3 s hne (by simp [hsp])
      rw [hv]
      refine iff_of_false (by simp) ?_
      rintro (h | ⟨ys, ms, ds, heq, _⟩)
      · exact hs' h
      · cases heq
    · have hv := validate_date_not3 s hne (by simp [hsp])
      rw [hv]
      refine iff_of_false (by simp) ?_
      rintro (h | ⟨ys, ms, ds, heq, _⟩)
      · exact hs' h
      · simp at heq
    · have hv := validate_date_not3 s hne (by simp [hsp])
      rw [hv]
      refine iff_of_false (by simp) ?_
      rintro (h | ⟨ys, ms, ds, heq, _⟩)
      · exact hs' h
      · simp at heq
    · have hv := validate_date_eq_checkYMD s a b c hne hsp
      rw [hv, checkYMD_eq_true]
      constructor
      · rintro ⟨y, m, d, hY, hM, hD, hy, hd⟩
        obtain ⟨hA4, hAdig, hAval⟩ := (matchYearField_some_iff a y).mp hY
        obtain ⟨hBlen, hBdig, hB1, hB12, hBval⟩ := (matchNumField_some_iff b 12 m).mp hM
        obtain ⟨hClen, hCdig, hC1, _, hCval⟩ := (matchNumField_some_iff c 31 d).mp hD
        refine Or.inr ⟨a, b, c, rfl, hA4, hAdig, hBlen, hBdig, hClen, hCdig, ?_, ?_, ?_, ?_, ?_⟩
        · rw [hAval]; exact hy
        · exact hB1
        · exact hB12
        · exact hC1
        · rw [hAval, hBval, hCval]; exact hd
      · rintro (h | ⟨ys, ms, ds, heq, hA4, hAdig, hBlen, hBdig, hClen, hCdig, hy1, hm1, hm12, hd1, hdmax⟩)
        · exact absurd h hs'
        · injection heq with h1 h2
          injection h2 with h2 h3
          injection h3 with h3 _
          rw [h1, h2, h3]
          exact ⟨digitsVal ys, digitsVal ms, digitsVal ds,
            (matchYearField_some_iff ys (digitsVal ys)).mpr ⟨hA4, hAdig, rfl⟩,
            (matchNumField_some_iff ms 12 (digitsVal ms)).mpr ⟨hBlen, hBdig, hm1, hm12, rfl⟩,
            (matchNumField_some_iff ds 31 (digitsVal ds)).mpr
              ⟨hClen, hCdig, hd1, le_trans hdmax (daysInMonth_le _ _), rfl⟩,
            hy1, hdmax⟩
    · have hv := validate_date_not3 s hne (by simp [hsp])
      rw [hv]
      refine iff_of_false (by simp) ?_
      rintro (h | ⟨ys, ms, ds, heq, _⟩)
      · exact hs' h
      · simp at heq

/-- Counterexample to C2 as stated: no route of the application is
registered at the path `/tasks` for POST — the create handler lives at
`/tarefas`. -/
theorem claim_C2_counterexample : ("/tasks", Method.POST) ∉ routes := by
  decide

/-- Claim C2 (amended): the create operation is exposed at
`/tarefas` (not `/tasks`); a POST body with the required fields yields
201 with the created task including its id, a missing/invalid field
yields 400 with the storage untouched, and a storage failure yields
500. -/
theorem claim_C2_create_route (body : ReqBody) (db : DB) (st : Option DB) :
    ("/tarefas", Method.POST) ∈ routes ∧
    (bodyValid body →
      (create_task body (some db)).1 =
        Response.mk (RespBody.task { id := db.nextId, title := body.titulo.getD "", description := body.descricao, status := body.status.getD "", due_date := body.data_vencimento }) 201) ∧
    (¬ bodyValid body → (create_task body st).1.code = 400 ∧ (create_task body st).2 = st) ∧
    (bodyValid body →
      (create_task body none).1 = Response.mk (RespBody.error "Erro interno no servidor") 500) := by
  refine ⟨by decide, ?_, ?_, ?_⟩
  · rintro ⟨h1, h2, h3, h4⟩
    simp [create_task, h1, h2, h3, h4]
  · intro hnb
    by_cases h1 : (falsy body.titulo || falsy body.status) = true
    · constructor <;> simp [create_task, h1]
    · have h1' := bool_eq_false h1
      obtain ⟨ht, hs⟩ := Bool.or_eq_false_iff.mp h1'
      by_cases h2 : validate_status (body.status.getD "") = true
      · have h4 : validate_date (body.data_vencimento.getD "") = false := by
          cases hdv : validate_date (body.data_vencimento.getD "")
          · rfl
          · exact absurd ⟨ht, hs, h2, hdv⟩ hnb
        have h3 := due_check_true_of_invalid _ h4
        constructor <;> simp [create_task, h1', h2, h3]
      · have h2' := bool_eq_false h2
        constructor <;> simp [create_task, h1', h2']
  · rintro ⟨h1, h2, h3, h4⟩
    simp [create_task, h1, h2, h3, h4]

/-- Witness for C2: a good body is created at id 1; a body without a
title is rejected without touching the storage; the good body against
a failed storage yields 500. -/
theorem claim_C2_witness :
    ("/tarefas", Method.POST) ∈ routes ∧
    (create_task { titulo := some "Buy milk", descricao := none, status := some "pendente", data_vencimento := none }
        (some { nextId := 1, rows := [] })).1 =
      Response.mk (RespBody.task { id := 1, title := "Buy milk", description := none, status := "pendente", due_date := none }) 201 ∧
    ((create_task { titulo := none, descricao := none, status := some "pendente", data_vencimento := none }
        (some { nextId := 1, rows := [] })).1.code = 400 ∧
     (create_task { titulo := none, descricao := none, status := some "pendente", data_vencimento := none }
        (some { nextId := 1, rows := [] })).2 = some { nextId := 1, rows := [] }) ∧
    (create_task { titulo := some "Buy milk", descricao := none, status := some "pendente", data_vencimento := none }
        none).1 = Response.mk (RespBody.error "Erro interno no servidor") 500 :=
  ⟨(claim_C2_create_route { titulo := some "Buy milk", descricao := none, status := some "pendente", data_vencimento := none } { nextId := 1, rows := [] } none).1,
   (claim_C2_create_route { titulo := some "Buy milk", descricao := none, status := some "pendente", data_vencimento := none } { nextId := 1, rows := [] } none).2.1 (by decide),
   (claim_C2_create_route { titulo := none, descricao := none, status := some "pendente", data_vencimento := none } { nextId := 1, rows := [] } (some { nextId := 1, rows := [] })).2.2.1 (by decide),
   (claim_C2_create_route { titulo := some "Buy milk", descricao := none, status := some "pendente", data_vencimento := none } { nextId := 1, rows := [] } none).2.2.2 (by decide)⟩

/-- Claim C10: `create_task` and `update_task` run the identical
validation: on every request body either both answer 400 — and then
with the very same error response — or both pass validation, whatever
the storage each one sees. -/
theorem claim_C10_create_update_same_validation (body : ReqBody) (id : Nat) (st stu : Option DB) :
    ((create_task body st).1.code = 400 ↔ (update_task id body stu).1.code = 400) ∧
    ((create_task body st).1.code = 400 → (create_task body st).1 = (update_task id body stu).1) := by
  by_cases h1 : (falsy body.titulo || falsy body.status) = true
  · have hC : (create_task body st).1 = Response.mk (RespBody.error "Título e status são obrigatórios") 400 := by
      simp [create_task, h1]
    have hU : (update_task id body stu).1 = Response.mk (RespBody.error "Título e status são obrigatórios") 400 := by
      simp [update_task, h1]
    rw [hC, hU]
    exact ⟨Iff.rfl, fun _ => rfl⟩
  · have h1' := bool_eq_false h1
    by_cases h2 : validate_status (body.status.getD "") = true
    · by_cases h3 : (!falsy body.data_vencimento && !validate_date (body.data_vencimento.getD "")) = true
      · have hC : (create_task body st).1 = Response.mk (RespBody.error "Data de vencimento inválida") 400 := by
          simp [create_task, h1', h2, h3]
        have hU : (update_task id body stu).1 = Response.mk (RespBody.error "Data de vencimento inválida") 400 := by
          simp [update_task, h1', h2, h3]
        rw [hC, hU]
        exact ⟨Iff.rfl, fun _ => rfl⟩
      · have h3' := bool_eq_false h3
        have hCcode : (create_task body st).1.code ≠ 400 := by
          rcases create_task_pass_resp body st h1' h2 h3' with h | ⟨t, h⟩ <;> rw [h] <;> simp
        have hUcode : (update_task id body stu).1.code ≠ 400 := by
          rcases update_task_pass_resp id body stu h1' h2 h3' with h | h | ⟨t, h⟩ <;> rw [h] <;> simp
        exact ⟨iff_of_false hCcode hUcode, fun h => absurd h hCcode⟩
    · have h2' := bool_eq_false h2
      have hC : (create_task body st).1 = Response.mk (RespBody.error "Status inválido") 400 := by
        simp [create_task, h1', h2']
      have hU : (update_task id body stu).1 = Response.mk (RespBody.error "Status inválido") 400 := by
        simp [update_task, h1', h2']
      rw [hC, hU]
      exact ⟨Iff.rfl, fun _ => rfl⟩

/-- Witness for C10: a body with an unrecognised status makes create
and update fail with the identical 400 response, even against
different storage states. -/
theorem claim_C10_witness :
    ((create_task { titulo := some "t", descricao := none, status := some "urgente", data_vencimento := none }
        (some { nextId := 1, rows := [] })).1.code = 400 ↔
     (update_task 7 { titulo := some "t", descricao := none, status := some "urgente", data_vencimento := none }
        none).1.code = 400) ∧
    (create_task { titulo := some "t", descricao := none, status := some "urgente", data_vencimento := none }
        (some { nextId := 1, rows := [] })).1 =
      (update_task 7 { titulo := some "t", descricao := none, status := some "urgente", data_vencimento := none }
        none).1 :=
  ⟨(claim_C10_create_update_same_validation _ 7 (some { nextId := 1, rows := [] }) none).1,
   (claim_C10_create_update_same_validation _ 7 (some { nextId := 1, rows := [] }) none).2 (by decide)⟩

end TaskApp
